import Mathlib

/-!
Verification development for a Pulumi/Kubernetes deployment program for the
Postal mail server.  The TypeScript sources (`src/index.ts`, `src/postal.ts`,
and the MariaDB component file) are shallowly embedded below: the
configuration loader becomes a pure function over an explicit settings
record, each declared Kubernetes resource becomes a Lean structure, and the
JavaScript idioms used by the sources (falsy `||` defaulting, `??`
defaulting, `parseInt`, base64 encoding of UTF-8 text, string-template
rendering) are modelled as executable Lean functions.
-/

namespace PostalSpec

/-! ## JavaScript value helpers

The sources use `x || d` on strings (empty string and `undefined` are falsy),
`x ?? d` on booleans, and `x || d` on numbers (`0`, `NaN` and `undefined` are
falsy).  `Option` models `undefined`; for numbers, `none` also stands for
`NaN` (both are falsy, and the sources never distinguish them). -/

/-- JS `s || d` for `s : string | undefined`: `undefined` and `""` are falsy. -/
def jsOrStr (x : Option String) (d : String) : String :=
  match x with
  | some s => if s = "" then d else s
  | none => d

/-- JS `n || d` for `n : number | undefined`: `undefined`, `NaN` and `0` are falsy. -/
def jsOrNum (x : Option Int) (d : Int) : Int :=
  match x with
  | some n => if n = 0 then d else n
  | none => d

/-- JS `n || d` on an optional nonnegative number (used for the MariaDB port). -/
def jsOrNat (x : Option Nat) (d : Nat) : Nat :=
  match x with
  | some n => if n = 0 then d else n
  | none => d

/-- JS truthiness of `b : boolean | undefined` (used for `if (args.deployIngress)`). -/
def jsTruthy (x : Option Bool) : Bool :=
  match x with
  | some b => b
  | none => false

/-- JS spread idiom `...(x && { k: x })` on a string: the key is present only
when the string is defined and nonempty. -/
def optNonempty (x : Option String) : Option String :=
  match x with
  | some s => if s = "" then none else some s
  | none => none

/-- JS `parseInt(s)` modelled for base-10 inputs: skip leading whitespace, an
optional sign, then read leading decimal digits; `none` models `NaN` (no
digits found).  Hexadecimal prefixes are not modelled; the settings store
only carries decimal replica counts. -/
def parseIntJS (s : String) : Option Int :=
  let digitsVal (l : List Char) : Option Nat :=
    let ds := l.takeWhile Char.isDigit
    if ds.isEmpty then none
    else some (ds.foldl (fun acc c => acc * 10 + (c.toNat - 48)) 0)
  let t := s.data.dropWhile Char.isWhitespace
  match t with
  | '-' :: rest => (digitsVal rest).map (fun n => -(n : Int))
  | '+' :: rest => (digitsVal rest).map (fun n => (n : Int))
  | _ => (digitsVal t).map (fun n => (n : Int))

/-! ## UTF-8 and base64

`Buffer.from(text).toString("base64")` in the sources: UTF-8 encode the text,
then standard base64 with `=` padding. -/

/-- UTF-8 encoding of a single code point. -/
def utf8EncodeChar (c : Nat) : List Nat :=
  if c < 128 then [c]
  else if c < 2048 then [192 + c / 64, 128 + c % 64]
  else if c < 65536 then [224 + c / 4096, 128 + (c / 64) % 64, 128 + c % 64]
  else [240 + c / 262144, 128 + (c / 4096) % 64, 128 + (c / 64) % 64, 128 + c % 64]

/-- UTF-8 bytes of a string. -/
def utf8Bytes (s : String) : List Nat :=
  (s.data.map (fun c => utf8EncodeChar c.toNat)).flatten

/-- The base64 alphabet. -/
def b64Alphabet : List Char :=
  "ABCDEFGHIJKLMNOPQRSTUVWXYZabcdefghijklmnopqrstuvwxyz0123456789+/".data

/-- Character for a 6-bit group. -/
def b64c (n : Nat) : Char := b64Alphabet.getD n '='

/-- Base64 of a byte list, with padding. -/
def base64Bytes : List Nat → List Char
  | [] => []
  | [a] => [b64c (a / 4), b64c (a % 4 * 16), '=', '=']
  | [a, b] => [b64c (a / 4), b64c (a % 4 * 16 + b / 16), b64c (b % 16 * 4), '=']
  | a :: b :: c :: rest =>
      b64c (a / 4) :: b64c (a % 4 * 16 + b / 16) :: b64c (b % 16 * 4 + c / 64) ::
        b64c (c % 64) :: base64Bytes rest

/-- `Buffer.from(s).toString("base64")`. -/
def base64Encode (s : String) : String := ⟨base64Bytes (utf8Bytes s)⟩

/-! ## Line-level document structure

The rendered `postal.yml` is checked for line-level syntactic validity:
every line must be blank, a list item (`- ...`), or a `key:`/`key: value`
pair, which is the shape of the config format the template produces. -/

/-- Split a character list at newline characters.  A trailing newline
produces a final empty line. -/
def splitLines : List Char → List (List Char)
  | [] => [[]]
  | c :: rest =>
      if c = '\n' then [] :: splitLines rest
      else
        match splitLines rest with
        | [] => [[c]]
        | l :: ls => (c :: l) :: ls

/-- Characters allowed in a config key. -/
def keyChar (c : Char) : Bool := c.isAlpha || c.isDigit || c = '_'

/-- After a key and its colon: end of line or a space then any value. -/
def restOk : List Char → Bool
  | [] => true
  | ' ' :: _ => true
  | _ => false

/-- Scan a key followed by a colon and a well-formed remainder. -/
def keyColonRest : List Char → Bool
  | [] => false
  | ':' :: r => restOk r
  | c :: r => keyChar c && keyColonRest r

/-- Drop leading indentation. -/
def dropSpaces : List Char → List Char
  | ' ' :: r => dropSpaces r
  | r => r

/-- A line is valid when blank, a list item, or a key/value pair. -/
def validLine (l : List Char) : Bool :=
  match dropSpaces l with
  | [] => true
  | '-' :: ' ' :: _ => true
  | c :: r => keyChar c && keyColonRest (c :: r)

/-- Line-level syntactic validity of a rendered document. -/
def validDoc (s : String) : Bool := (splitLines s.data).all validLine

/-- Join lines with newline separators (no trailing separator). -/
def joinNL : List (List Char) → List Char
  | [] => []
  | [l] => l
  | l :: ls => l ++ '\n' :: joinNL ls

/-- A string has no embedded newline. -/
def noNL (s : String) : Prop := '\n' ∉ s.data

theorem noNL_app {a b : List Char} (ha : '\n' ∉ a) (hb : '\n' ∉ b) :
    '\n' ∉ a ++ b := fun h => ((List.mem_append).1 h).elim (fun x => ha x) (fun x => hb x)

theorem splitLines_noNL (xs : List Char) (h : '\n' ∉ xs) : splitLines xs = [xs] := by
  induction xs with
  | nil => rfl
  | cons c rest ih =>
      have hc : ¬ c = '\n' := fun hx => h (hx ▸ List.mem_cons_self c rest)
      have hr : '\n' ∉ rest := fun hx => h (List.mem_cons_of_mem c hx)
      simp [splitLines, hc, ih hr]

theorem splitLines_append_nl (l rest : List Char) (h : '\n' ∉ l) :
    splitLines (l ++ '\n' :: rest) = l :: splitLines rest := by
  induction l with
  | nil => simp [splitLines]
  | cons c l ih =>
      have hc : ¬ c = '\n' := fun hx => h (hx ▸ List.mem_cons_self c l)
      have hl : '\n' ∉ l := fun hx => h (List.mem_cons_of_mem c hx)
      simp only [List.cons_append, splitLines, if_neg hc, List.append_eq, ih hl]

theorem splitLines_joinNL :
    ∀ (ls : List (List Char)), ls ≠ [] → (∀ l ∈ ls, '\n' ∉ l) →
      splitLines (joinNL ls) = ls
  | [], h, _ => absurd rfl h
  | [l], _, h => by
      simpa [joinNL] using splitLines_noNL l (h l (by simp))
  | l :: l' :: ls, _, h => by
      have e : joinNL (l :: l' :: ls) = l ++ '\n' :: joinNL (l' :: ls) := rfl
      rw [e, splitLines_append_nl l _ (h l (by simp)),
        splitLines_joinNL (l' :: ls) (by simp)
          (fun x hx => h x (List.mem_cons_of_mem l hx))]

/-! ## Substring search (used to inspect rendered documents) -/

/-- Pattern is a leading segment of the list. -/
def leadsWith : List Char → List Char → Bool
  | [], _ => true
  | _ :: _, [] => false
  | p :: ps, c :: cs => p = c && leadsWith ps cs

/-- Pattern occurs somewhere in the list. -/
def hasSeq (pat : List Char) (s : List Char) : Bool :=
  match s with
  | [] => leadsWith pat []
  | _ :: rest => leadsWith pat s || hasSeq pat rest

/-! ## Pulumi values

In `index.ts` the values obtained from `requireSecret`/`getSecret` are pulumi
`Output<string>` objects.  `postal.ts` resolves most of them with
`all([...]).apply(...)` or `output(...).apply(...)` (modelled by reading
`.value`), but `args.railsSecretKey` is interpolated into a plain JS template
literal without being resolved, which invokes the JS string coercion of the
`Output` object. -/

/-- A pulumi `Output<string>`; `value` is the resolved value that
`apply`/`all`/`interpolate` observe. -/
structure OutputVal where
  value : String
deriving DecidableEq, Inhabited

/-- Modelled from the pulumi Node SDK (`sdk/nodejs/output.ts`): the JS string
coercion `String(o)` of an `Output` returns a fixed warning message and never
the resolved value.  This constant is that message. -/
def outputToStringMessage : String :=
  "Calling [toString] on an [Output<T>] is not supported.\n\nTo get the value of an Output<T> as an Output<string> consider either:\n1: o.apply(v => `prefix${v}suffix`)\n2: pulumi.interpolate `prefix${o}suffix`\n\nSee https://www.pulumi.com/docs/concepts/inputs-outputs for more details.\nThis function may throw in a future version of @pulumi/pulumi."

/-- JS string coercion of an `Output` object (always the fixed message). -/
def outputToString (_o : OutputVal) : String := outputToStringMessage

/-! ## Kubernetes resource records (the fields the sources set) -/

/-- Resource metadata: name and namespace. -/
structure ObjectMeta where
  name : String
  ns : String
deriving DecidableEq, Inhabited

/-- A pod volume backed by a secret (`volumes: [{ name, secret.secretName }]`). -/
structure Volume where
  name : String
  secretName : String
deriving DecidableEq, Inhabited

/-- A Secret with base64-encoded `data` entries. -/
structure SecretRes where
  metadata : ObjectMeta
  data : List (String × String)
deriving DecidableEq, Inhabited

/-- A ConfigMap with plain `data` entries. -/
structure ConfigMapRes where
  metadata : ObjectMeta
  data : List (String × String)
deriving DecidableEq, Inhabited

/-- A PersistentVolumeClaim. -/
structure PvcRes where
  metadata : ObjectMeta
  storage : String
  storageClassName : Option String
deriving DecidableEq, Inhabited

/-- A Deployment of one of the Postal workload roles. -/
structure DeploymentRes where
  metadata : ObjectMeta
  replicas : Int
  image : String
  command : List String
  volumes : List Volume
deriving DecidableEq, Inhabited

/-- The MariaDB Deployment (mounts a PVC and the init-script ConfigMap). -/
structure DbDeploymentRes where
  metadata : ObjectMeta
  replicas : Int
  image : String
  claimName : String
  initScriptsConfigMap : String
deriving DecidableEq, Inhabited

/-- A Service. -/
structure ServiceRes where
  metadata : ObjectMeta
  type : String
  port : Nat
  loadBalancerIP : Option String
deriving DecidableEq, Inhabited

/-- The run-once initialization Job. -/
structure JobRes where
  metadata : ObjectMeta
  restartPolicy : String
  command : List String
  volumes : List Volume
deriving DecidableEq, Inhabited

/-- The optional web Ingress. -/
structure IngressRes where
  metadata : ObjectMeta
  ingressClassName : String
  host : String
  tlsSecretName : String
  backendService : String
  backendPort : Nat
deriving DecidableEq, Inhabited

/-! ## The Postal component (`src/postal.ts`) -/

/-- Arguments of the `Postal` component as instantiated by `index.ts`:
`domain`, `host`, `database`, `username` are plain strings there, while
`password`, `signingKey` and the optional `railsSecretKey` are pulumi
outputs.  `none` on a replica count stands for `undefined` or `NaN` (both
falsy in the `|| 1` default). -/
structure PostalArgs where
  ns : String
  domain : String
  host : String
  database : String
  username : String
  password : OutputVal
  signingKey : OutputVal
  railsSecretKey : Option OutputVal := none
  image : Option String := none
  webReplicas : Option Int := none
  smtpReplicas : Option Int := none
  workerReplicas : Option Int := none
  smtpServiceType : Option String := none
  smtpLoadBalancerIP : Option String := none
  deployIngress : Option Bool := none
  ingressClass : Option String := none
deriving Inhabited

/-- The fixed fallback `rails.secret_key` from the template in
`postal.ts` line 84. -/
def defaultRailsSecretKey : String :=
  "f1e4a061c0f3894a65d0335ce9d56ffa16c8b4d8dd2a101d875f703358790fc69b5a27f854dfff895b6d86cb9994ed8506e0cdec1a2cd5a1c840bf98b47431cd08de05e33a12f53219dcb795e4d72685647b40eb707555c242a1facc40b19c4cd3a35b0ca91507a672d3f7bce48a0dad81c930320001b22ba6fdc468f9a8ce08"

/-- The value interpolated for `${args.railsSecretKey || 'f1e4...'}` in the
template literal: when an `Output` was supplied it is truthy, so JS coerces
the object itself to a string; otherwise the fixed default is used. -/
def railsSecretStr : Option OutputVal → String
  | some o => outputToString o
  | none => defaultRailsSecretKey

/-- The `postal.yml` template of `postal.ts` lines 72-105, with the
interpolated values as arguments (`secretKey` is the already-coerced
`rails.secret_key` value). -/
def postalYmlContent (host username password database domain secretKey : String) : String :=
  "version: 2\nmain_db:\n  host: " ++ host ++
  "\n  username: " ++ username ++
  "\n  password: " ++ password ++
  "\n  database: " ++ database ++
  "\nmessage_db:\n  host: " ++ host ++
  "\n  username: " ++ username ++
  "\n  password: " ++ password ++
  "\n  prefix: postal\nrails:\n  secret_key: " ++ secretKey ++
  "\npostal:\n  web_hostname: " ++ domain ++
  "\n  web_protocol: https\n  use_ip_pools: true\n  smtp_hostname: " ++ domain ++
  "\n  trusted_proxies:\n    - 0.0.0.0/0\ndns:\n  mx_records:\n    - \"10 " ++ domain ++
  "\"\n  return_path_domain: " ++ domain ++
  "\n  route_domain: " ++ domain ++
  "\n  track_domain: " ++ domain ++
  "\n  spf_include: " ++ domain ++
  "\nweb_server:\n  default_bind_address: 0.0.0.0\n  default_port: 5000\nsmtp_server:\n  default_port: 25\n  tls_enabled: true\n"

/-- A single-quote character (39), used to build shell/SQL strings. -/
def sq : String := ⟨[Char.ofNat 39]⟩

/-- Default Postal container image. -/
def postalImage : String := "ghcr.io/postalserver/postal:3.3.4"

/-- The resources declared by the `Postal` component. -/
structure PostalComp where
  secret : SecretRes
  renderedConfig : String
  webDeployment : DeploymentRes
  webService : ServiceRes
  smtpDeployment : DeploymentRes
  smtpService : ServiceRes
  workerDeployment : DeploymentRes
  initJob : JobRes
  ingress : Option IngressRes
deriving Inhabited

/-- The `Postal` component constructor (`src/postal.ts`).  `renderedConfig`
is the local `postalYmlContent` value computed inside the secret's `apply`;
the secret stores its base64 encoding under `postal.yml`. -/
def mkPostal (name : String) (args : PostalArgs) : PostalComp :=
  let secretName := name ++ "-config"
  let renderedConfig :=
    postalYmlContent args.host args.username args.password.value args.database
      args.domain (railsSecretStr args.railsSecretKey)
  let image := jsOrStr args.image postalImage
  let configVolumes : List Volume := [⟨"config", secretName⟩]
  { secret :=
      { metadata := ⟨secretName, args.ns⟩
        data := [("postal.yml", base64Encode renderedConfig),
                 ("signing.key", base64Encode args.signingKey.value)] }
    renderedConfig := renderedConfig
    webDeployment :=
      { metadata := ⟨name ++ "-web", args.ns⟩
        replicas := jsOrNum args.webReplicas 1
        image := image
        command := ["postal", "web-server"]
        volumes := configVolumes }
    webService :=
      { metadata := ⟨name ++ "-web", args.ns⟩
        type := "ClusterIP"
        port := 5000
        loadBalancerIP := none }
    smtpDeployment :=
      { metadata := ⟨name ++ "-smtp", args.ns⟩
        replicas := jsOrNum args.smtpReplicas 1
        image := image
        command := ["postal", "smtp-server"]
        volumes := configVolumes }
    smtpService :=
      { metadata := ⟨name ++ "-smtp", args.ns⟩
        type := jsOrStr args.smtpServiceType "ClusterIP"
        port := 25
        loadBalancerIP := optNonempty args.smtpLoadBalancerIP }
    workerDeployment :=
      { metadata := ⟨name ++ "-worker", args.ns⟩
        replicas := jsOrNum args.workerReplicas 1
        image := image
        command := ["postal", "worker"]
        volumes := configVolumes }
    initJob :=
      { metadata := ⟨name ++ "-init", args.ns⟩
        restartPolicy := "OnFailure"
        command := ["sh", "-c",
          "postal initialize && printf " ++ sq ++ "admin@" ++ args.domain ++
            "\\nPostal\\nAdmin\\nPostalAdmin123!" ++ sq ++ " | postal make-user"]
        volumes := configVolumes }
    ingress :=
      if jsTruthy args.deployIngress then
        some
          { metadata := ⟨name ++ "-web", args.ns⟩
            ingressClassName := jsOrStr args.ingressClass "nginx"
            host := args.domain
            tlsSecretName := name ++ "-web-tls"
            backendService := name ++ "-web"
            backendPort := 5000 }
      else none }

/-! ## The MariaDB component (the unnamed component source file) -/

/-- Arguments of the `MariaDB` component. -/
structure MariaDBArgs where
  ns : String
  rootPassword : OutputVal
  database : String
  username : String
  password : OutputVal
  storageSize : Option String := none
  storageClass : Option String := none
  image : Option String := none
  port : Option Nat := none
deriving Inhabited

/-- The `init-postal.sql` script (template literal in the MariaDB component):
grants the application user all privileges over the wildcard database name
pattern `postal-%`. -/
def initPostalSql (username : String) : String :=
  "\n-- Grant permissions for Postal mail server databases\nGRANT ALL PRIVILEGES ON `postal-%`.* TO " ++
    sq ++ username ++ sq ++ "@" ++ sq ++ "%" ++ sq ++ ";\nFLUSH PRIVILEGES;\n"

/-- The resources declared by the `MariaDB` component. -/
structure MariaDBComp where
  secret : SecretRes
  configMap : ConfigMapRes
  pvc : PvcRes
  deployment : DbDeploymentRes
  service : ServiceRes
deriving Inhabited

/-- The `MariaDB` component constructor. -/
def mkMariaDB (name : String) (args : MariaDBArgs) : MariaDBComp :=
  let port := jsOrNat args.port 3306
  { secret :=
      { metadata := ⟨name ++ "-secret", args.ns⟩
        data := [("mariadb-root-password", base64Encode args.rootPassword.value),
                 ("mariadb-password", base64Encode args.password.value)] }
    configMap :=
      { metadata := ⟨name ++ "-init", args.ns⟩
        data := [("init-postal.sql", initPostalSql args.username)] }
    pvc :=
      { metadata := ⟨name ++ "-pvc", args.ns⟩
        storage := jsOrStr args.storageSize "8Gi"
        storageClassName := optNonempty args.storageClass }
    deployment :=
      { metadata := ⟨name ++ "-deployment", args.ns⟩
        replicas := 1
        image := jsOrStr args.image "mariadb:10.11"
        claimName := name ++ "-pvc"
        initScriptsConfigMap := name ++ "-init" }
    service :=
      { metadata := ⟨name ++ "-service", args.ns⟩
        type := "ClusterIP"
        port := port
        loadBalancerIP := none } }

/-! ## The stack program (`src/index.ts`) -/

/-- The named settings the program reads from the pulumi config store;
`none` is an unset key. -/
structure StackConfig where
  kubeconfig : Option String := none
  domain : Option String := none
  mariadbPassword : Option String := none
  signingKey : Option String := none
  mariadbRootPassword : Option String := none
  railsSecretKey : Option String := none
  mariadbHost : Option String := none
  mariadbDatabase : Option String := none
  mariadbUsername : Option String := none
  mariadbStorageSize : Option String := none
  mariadbStorageClass : Option String := none
  image : Option String := none
  webReplicas : Option String := none
  smtpReplicas : Option String := none
  workerReplicas : Option String := none
  smtpServiceType : Option String := none
  smtpLoadBalancerIP : Option String := none
  ingressClass : Option String := none
  deployIngress : Option Bool := none
  deployMariadb : Option Bool := none
deriving Inhabited

/-- A fatal startup error of the configuration loader. -/
inductive ConfigError where
  | missing (key : String)
deriving DecidableEq

/-- `config.require(key)` / `config.requireSecret(key)`: a missing required
value throws synchronously. -/
def requireKey (key : String) : Option String → Except ConfigError String
  | some v => Except.ok v
  | none => Except.error (ConfigError.missing key)

/-- `dbConfig` of `index.ts` lines 48-54. -/
structure DatabaseConfig where
  host : String
  database : String
  username : String
  storageSize : String
  storageClass : String
deriving Inhabited

/-- `index.ts`: database configuration with defaults. -/
def dbConfigOf (cfg : StackConfig) : DatabaseConfig :=
  { host := jsOrStr cfg.mariadbHost "postal-mariadb-service"
    database := jsOrStr cfg.mariadbDatabase "postal"
    username := jsOrStr cfg.mariadbUsername "postal"
    storageSize := jsOrStr cfg.mariadbStorageSize "8Gi"
    storageClass := jsOrStr cfg.mariadbStorageClass "" }

/-- `serviceConfig` of `index.ts` lines 57-64. -/
structure ServiceConfig where
  image : String
  webReplicas : Option Int
  smtpReplicas : Option Int
  workerReplicas : Option Int
  smtpServiceType : String
  smtpLoadBalancerIP : String
deriving Inhabited

/-- `index.ts`: service configuration with defaults (replica counts go
through `parseInt`). -/
def serviceConfigOf (cfg : StackConfig) : ServiceConfig :=
  { image := jsOrStr cfg.image postalImage
    webReplicas := parseIntJS (jsOrStr cfg.webReplicas "1")
    smtpReplicas := parseIntJS (jsOrStr cfg.smtpReplicas "1")
    workerReplicas := parseIntJS (jsOrStr cfg.workerReplicas "1")
    smtpServiceType := jsOrStr cfg.smtpServiceType "ClusterIP"
    smtpLoadBalancerIP := jsOrStr cfg.smtpLoadBalancerIP "" }

/-- `ingressConfig` of `index.ts` lines 67-70. -/
structure IngressConfig where
  ingressClass : String
  deployIngress : Bool
deriving Inhabited

/-- `index.ts`: ingress configuration with defaults. -/
def ingressConfigOf (cfg : StackConfig) : IngressConfig :=
  { ingressClass := jsOrStr cfg.ingressClass "nginx"
    deployIngress := cfg.deployIngress.getD false }

/-- The declared stack: components plus the exported outputs of
`index.ts` lines 136-141. -/
structure Stack where
  mariadb : Option MariaDBComp
  postal : PostalComp
  namespaceName : String
  webUrl : String
  smtpServiceName : String
  smtpServiceType : String
  mariadbServiceName : String
  mariadbEndpoint : String
deriving Inhabited

/-- The `MariaDB` component instantiation of `index.ts` lines 96-105. -/
def integratedMariadbOf (cfg : StackConfig)
    (mariadbRootPassword mariadbPassword : String) : MariaDBComp :=
  mkMariaDB "postal-mariadb"
    { ns := "postal"
      rootPassword := ⟨mariadbRootPassword⟩
      database := dbConfigOf cfg |>.database
      username := dbConfigOf cfg |>.username
      password := ⟨mariadbPassword⟩
      storageSize := some (dbConfigOf cfg).storageSize
      storageClass := optNonempty (some (dbConfigOf cfg).storageClass) }

/-- The `Postal` component instantiation of `index.ts` lines 112-130. -/
def postalOf (cfg : StackConfig)
    (postalDomain mariadbPassword signingKey : String) : PostalComp :=
  mkPostal "postal"
    { ns := "postal"
      domain := postalDomain
      host := dbConfigOf cfg |>.host
      database := dbConfigOf cfg |>.database
      username := dbConfigOf cfg |>.username
      password := ⟨mariadbPassword⟩
      signingKey := ⟨signingKey⟩
      railsSecretKey := cfg.railsSecretKey.map OutputVal.mk
      image := some (serviceConfigOf cfg).image
      webReplicas := (serviceConfigOf cfg).webReplicas
      smtpReplicas := (serviceConfigOf cfg).smtpReplicas
      workerReplicas := (serviceConfigOf cfg).workerReplicas
      smtpServiceType := some (serviceConfigOf cfg).smtpServiceType
      smtpLoadBalancerIP := some (serviceConfigOf cfg).smtpLoadBalancerIP
      deployIngress := some (ingressConfigOf cfg).deployIngress
      ingressClass := some (ingressConfigOf cfg).ingressClass }

/-- The resources and outputs declared once all required settings are
present (`index.ts` after the `require` calls succeed). -/
def mkStack (cfg : StackConfig) (postalDomain mariadbPassword signingKey
    mariadbRootPassword : String) : Stack :=
  let deployMariadb := cfg.deployMariadb.getD true
  let mariadb : Option MariaDBComp :=
    if deployMariadb then
      some (integratedMariadbOf cfg mariadbRootPassword mariadbPassword)
    else none
  let postal := postalOf cfg postalDomain mariadbPassword signingKey
  { mariadb := mariadb
    postal := postal
    namespaceName := "postal"
    webUrl := "https://" ++ postalDomain
    smtpServiceName := postal.smtpService.metadata.name
    smtpServiceType := postal.smtpService.type
    mariadbServiceName :=
      match mariadb with
      | some m => m.service.metadata.name
      | none => "external-mariadb"
    mariadbEndpoint :=
      match mariadb with
      | some m => m.service.metadata.name ++ ".postal.svc.cluster.local:3306"
      | none => dbConfigOf cfg |>.host ++ ":3306" }

/-- The whole program of `index.ts`: validate required settings in source
order, then declare the stack.  A missing required value is a synchronous
fatal error; no resources are declared and nothing retries. -/
def program (cfg : StackConfig) : Except ConfigError Stack :=
  match requireKey "kubeconfig" cfg.kubeconfig with
  | Except.error e => Except.error e
  | Except.ok _kubeconfig =>
  match requireKey "postal:domain" cfg.domain with
  | Except.error e => Except.error e
  | Except.ok postalDomain =>
  match requireKey "postal:mariadb-password" cfg.mariadbPassword with
  | Except.error e => Except.error e
  | Except.ok mariadbPassword =>
  match requireKey "postal:signing-key" cfg.signingKey with
  | Except.error e => Except.error e
  | Except.ok signingKey =>
  match requireKey "postal:mariadb-root-password" cfg.mariadbRootPassword with
  | Except.error e => Except.error e
  | Except.ok mariadbRootPassword =>
    Except.ok (mkStack cfg postalDomain mariadbPassword signingKey mariadbRootPassword)

/-- Extract the stack of a successful run (`default` is never used by the
theorems below, which always supply a successful run). -/
def exStack (e : Except ConfigError Stack) : Stack :=
  match e with
  | Except.ok st => st
  | Except.error _ => default

/-- Whether a run succeeded. -/
def exIsOk (e : Except ConfigError Stack) : Bool :=
  match e with
  | Except.ok _ => true
  | Except.error _ => false

/-- Look up a key in a secret/config-map `data` list. -/
def lookupKV (l : List (String × String)) (k : String) : Option String :=
  match l with
  | [] => none
  | (k', v) :: rest => if k' = k then some v else lookupKV rest k

/-! ## The declared dependency graph

Nodes are the declared resources and the two component resources; edges are
exactly the `parent:` relations and `dependsOn:` lists written in the
sources, plus pulumi's rule that a dependency on a component resource is a
dependency on all of its children. -/

/-- The declared resources. -/
inductive Res where
  | namespaceRes
  | mariadbComp | mariadbSecret | mariadbConfigMap | mariadbPvc
  | mariadbDeployment | mariadbService
  | postalComp | postalSecret | webDeploymentRes | webServiceRes
  | smtpDeploymentRes | smtpServiceRes | workerDeploymentRes
  | initJobRes | webIngressRes
deriving DecidableEq

/-- `parent:` relations: every resource created inside a component
constructor has that component as parent. -/
def parentE : Res → Option Res
  | Res.mariadbSecret | Res.mariadbConfigMap | Res.mariadbPvc
  | Res.mariadbDeployment | Res.mariadbService => some Res.mariadbComp
  | Res.postalSecret | Res.webDeploymentRes | Res.webServiceRes
  | Res.smtpDeploymentRes | Res.smtpServiceRes | Res.workerDeploymentRes
  | Res.initJobRes | Res.webIngressRes => some Res.postalComp
  | _ => none

/-- `dependsOn:` lists as written in the sources.  `index.ts` line 130 gives
the Postal component a dependency on the MariaDB component when the
integrated database is deployed. -/
def dependsOnE (deployMariadb : Bool) : Res → List Res
  | Res.mariadbComp => [Res.namespaceRes]
  | Res.postalComp =>
      if deployMariadb then [Res.namespaceRes, Res.mariadbComp]
      else [Res.namespaceRes]
  | Res.webDeploymentRes => [Res.postalSecret]
  | Res.webServiceRes => [Res.webDeploymentRes]
  | Res.smtpDeploymentRes => [Res.postalSecret]
  | Res.smtpServiceRes => [Res.smtpDeploymentRes]
  | Res.workerDeploymentRes => [Res.postalSecret]
  | Res.initJobRes => [Res.postalSecret]
  | Res.webIngressRes => [Res.webServiceRes]
  | Res.mariadbDeployment => [Res.mariadbSecret, Res.mariadbPvc, Res.mariadbConfigMap]
  | Res.mariadbService => [Res.mariadbDeployment]
  | _ => []

/-- The children of each component resource. -/
def membersOf : Res → List Res
  | Res.mariadbComp =>
      [Res.mariadbSecret, Res.mariadbConfigMap, Res.mariadbPvc,
       Res.mariadbDeployment, Res.mariadbService]
  | Res.postalComp =>
      [Res.postalSecret, Res.webDeploymentRes, Res.webServiceRes,
       Res.smtpDeploymentRes, Res.smtpServiceRes, Res.workerDeploymentRes,
       Res.initJobRes, Res.webIngressRes]
  | _ => []

/-- A dependency on a resource expands to the resource and, when it is a
component, all of its children (fuel-bounded). -/
def expandDep : Nat → Res → List Res
  | 0, r => [r]
  | n + 1, r => r :: (membersOf r).flatMap (expandDep n)

/-- Direct effective dependencies of a resource: its expanded `dependsOn:`
targets plus the dependencies inherited through its `parent:` chain. -/
def effDeps (dm : Bool) : Nat → Res → List Res
  | 0, _ => []
  | n + 1, r =>
      ((dependsOnE dm r).flatMap (expandDep 4)) ++
        (match parentE r with
         | some p => effDeps dm n p
         | none => [])

/-- `t` is in the declared transitive dependency set of `a` (fuel-bounded
reachability over effective dependencies). -/
def reachB (dm : Bool) : Nat → Res → Res → Bool
  | 0, _, _ => false
  | n + 1, a, t => (effDeps dm 4 a).any (fun d => d == t || reachB dm n d t)

/-! ## Line decomposition of the rendered configuration -/

theorem strData_append (a b : String) : (a ++ b).data = a.data ++ b.data := rfl

/-- The lines of the rendered `postal.yml`, with the interpolated values in
place (the final `[]` is the empty line after the trailing newline). -/
def postalDocLines (host username password database domain secretKey : String) :
    List (List Char) :=
  [ "version: 2".data,
    "main_db:".data,
    "  host: ".data ++ host.data,
    "  username: ".data ++ username.data,
    "  password: ".data ++ password.data,
    "  database: ".data ++ database.data,
    "message_db:".data,
    "  host: ".data ++ host.data,
    "  username: ".data ++ username.data,
    "  password: ".data ++ password.data,
    "  prefix: postal".data,
    "rails:".data,
    "  secret_key: ".data ++ secretKey.data,
    "postal:".data,
    "  web_hostname: ".data ++ domain.data,
    "  web_protocol: https".data,
    "  use_ip_pools: true".data,
    "  smtp_hostname: ".data ++ domain.data,
    "  trusted_proxies:".data,
    "    - 0.0.0.0/0".data,
    "dns:".data,
    "  mx_records:".data,
    "    - \"10 ".data ++ domain.data ++ "\"".data,
    "  return_path_domain: ".data ++ domain.data,
    "  route_domain: ".data ++ domain.data,
    "  track_domain: ".data ++ domain.data,
    "  spf_include: ".data ++ domain.data,
    "web_server:".data,
    "  default_bind_address: 0.0.0.0".data,
    "  default_port: 5000".data,
    "smtp_server:".data,
    "  default_port: 25".data,
    "  tls_enabled: true".data,
    [] ]

set_option maxHeartbeats 1000000 in
set_option maxRecDepth 8000 in
theorem postalYml_data_eq (h u p db dom k : String) :
    (postalYmlContent h u p db dom k).data = joinNL (postalDocLines h u p db dom k) := by
  simp only [postalYmlContent, postalDocLines, joinNL, strData_append,
    List.append_assoc, List.cons_append, List.nil_append]

set_option maxRecDepth 8000 in
theorem docLines_all_valid (h u p db dom k : String) :
    (postalDocLines h u p db dom k).all validLine = true := rfl

theorem postalDocLines_noNL (h u p db dom k : String)
    (hh : '\n' ∉ h.data) (hu : '\n' ∉ u.data) (hp : '\n' ∉ p.data)
    (hdb : '\n' ∉ db.data) (hdom : '\n' ∉ dom.data) (hk : '\n' ∉ k.data) :
    ∀ l ∈ postalDocLines h u p db dom k, '\n' ∉ l := by
  intro l hl
  fin_cases hl
  all_goals first
    | decide
    | exact noNL_app (by decide) hh
    | exact noNL_app (by decide) hu
    | exact noNL_app (by decide) hp
    | exact noNL_app (by decide) hdb
    | exact noNL_app (by decide) hdom
    | exact noNL_app (by decide) hk
    | exact noNL_app (noNL_app (by decide) hdom) (by decide)

/-- The rendered configuration splits into exactly its template lines when
none of the interpolated values embeds a newline. -/
theorem splitLines_postalYml (h u p db dom k : String)
    (hh : '\n' ∉ h.data) (hu : '\n' ∉ u.data) (hp : '\n' ∉ p.data)
    (hdb : '\n' ∉ db.data) (hdom : '\n' ∉ dom.data) (hk : '\n' ∉ k.data) :
    splitLines (postalYmlContent h u p db dom k).data = postalDocLines h u p db dom k := by
  rw [postalYml_data_eq,
    splitLines_joinNL _ (by simp [postalDocLines])
      (postalDocLines_noNL h u p db dom k hh hu hp hdb hdom hk)]

/-! ## Shape of a successful run -/

/-- A successful run implies every required setting was present, and the
declared stack is `mkStack` at the required values. -/
theorem program_ok_shape (cfg : StackConfig) (st : Stack)
    (hok : program cfg = Except.ok st) :
    ∃ kc d pw sk rpw, cfg.kubeconfig = some kc ∧ cfg.domain = some d ∧
      cfg.mariadbPassword = some pw ∧ cfg.signingKey = some sk ∧
      cfg.mariadbRootPassword = some rpw ∧ st = mkStack cfg d pw sk rpw := by
  rcases hk : cfg.kubeconfig with _ | kc
  · simp [program, requireKey, hk] at hok
  rcases hd : cfg.domain with _ | d
  · simp [program, requireKey, hk, hd] at hok
  rcases hpw : cfg.mariadbPassword with _ | pw
  · simp [program, requireKey, hk, hd, hpw] at hok
  rcases hs : cfg.signingKey with _ | sk
  · simp [program, requireKey, hk, hd, hpw, hs] at hok
  rcases hr : cfg.mariadbRootPassword with _ | rpw
  · simp [program, requireKey, hk, hd, hpw, hs, hr] at hok
  · simp only [program, requireKey, hk, hd, hpw, hs, hr] at hok
    exact ⟨kc, d, pw, sk, rpw, rfl, rfl, rfl, rfl, rfl,
      (Except.ok.injEq _ _ |>.mp hok).symm⟩

/-! ## Claim C2 -/

/-- C2: every workload role (web, SMTP, worker — and also the init job)
declared by the Postal component mounts exactly one config volume, and its
`secretName` is the generated configuration secret's own name; no role
references a different secret. -/
theorem claim2_config_volumes_share_secret (name : String) (args : PostalArgs) :
    (mkPostal name args).webDeployment.volumes
        = [⟨"config", (mkPostal name args).secret.metadata.name⟩]
      ∧ (mkPostal name args).smtpDeployment.volumes
        = [⟨"config", (mkPostal name args).secret.metadata.name⟩]
      ∧ (mkPostal name args).workerDeployment.volumes
        = [⟨"config", (mkPostal name args).secret.metadata.name⟩]
      ∧ (mkPostal name args).initJob.volumes
        = [⟨"config", (mkPostal name args).secret.metadata.name⟩] :=
  ⟨rfl, rfl, rfl, rfl⟩

/-! ## Claim C10 -/

/-- C10: a replica count that resolves to 0 yields a Deployment with
replicas 1 for each role; the `|| 1` default treats an explicit zero as
falsy, so a configured zero is indistinguishable from an unset value
(`parseIntJS "0" = some 0` connects the settings-store reading). -/
theorem claim10_zero_replicas_default (name : String) (args : PostalArgs) :
    parseIntJS "0" = some 0
      ∧ (mkPostal name { args with webReplicas := some 0 }).webDeployment.replicas = 1
      ∧ (mkPostal name { args with smtpReplicas := some 0 }).smtpDeployment.replicas = 1
      ∧ (mkPostal name { args with workerReplicas := some 0 }).workerDeployment.replicas = 1
      ∧ mkPostal name
            { args with webReplicas := some 0, smtpReplicas := some 0, workerReplicas := some 0 }
          = mkPostal name
            { args with webReplicas := none, smtpReplicas := none, workerReplicas := none } :=
  ⟨by decide, rfl, rfl, rfl, rfl⟩

/-! ## Claim C8 -/

/-- C8: the database initialization script, granting the application user
all privileges over the wildcard pattern `postal-%`, is declared as the
MariaDB component's ConfigMap, and in the integrated mode's declared
dependency graph the Postal init job transitively depends on that ConfigMap
(init job → parent Postal component → dependsOn MariaDB component → its
children), so the grant resource precedes the init job. -/
theorem claim8_grant_precedes_init (name : String) (args : MariaDBArgs) :
    (mkMariaDB name args).configMap.data
        = [("init-postal.sql", initPostalSql args.username)]
      ∧ hasSeq "GRANT ALL PRIVILEGES ON `postal-%`.* TO ".data
          (initPostalSql args.username).data = true
      ∧ reachB true 8 Res.initJobRes Res.mariadbConfigMap = true :=
  ⟨rfl, rfl, by decide⟩

/-! ## Claim C6 -/

/-- C6: if any required configuration value (domain, database credentials,
root credentials, or signing key) is absent, the program fails synchronously
with a fatal missing-configuration error: it returns an error and declares
no stack (the embedding is a pure function, so there is nothing to retry). -/
theorem claim6_missing_config_fails (cfg : StackConfig)
    (h : cfg.domain = none ∨ cfg.mariadbPassword = none ∨ cfg.signingKey = none ∨
      cfg.mariadbRootPassword = none) :
    ∃ k, program cfg = Except.error (ConfigError.missing k) := by
  rcases hk : cfg.kubeconfig with _ | kc
  · exact ⟨"kubeconfig", by simp [program, requireKey, hk]⟩
  rcases hd : cfg.domain with _ | d
  · exact ⟨"postal:domain", by simp [program, requireKey, hk, hd]⟩
  rcases hpw : cfg.mariadbPassword with _ | pw
  · exact ⟨"postal:mariadb-password", by simp [program, requireKey, hk, hd, hpw]⟩
  rcases hs : cfg.signingKey with _ | sk
  · exact ⟨"postal:signing-key", by simp [program, requireKey, hk, hd, hpw, hs]⟩
  rcases hr : cfg.mariadbRootPassword with _ | rpw
  · exact ⟨"postal:mariadb-root-password",
      by simp [program, requireKey, hk, hd, hpw, hs, hr]⟩
  · simp [hd, hpw, hs, hr] at h

/-! ## Claim C3 -/

/-- C3: with the external-database mode selected (`deploy-mariadb` false) no
MariaDB component is declared — hence no database workload, service, secret
or persistent-volume-claim object exists in the stack — and with external
host `db.internal` the `mariadbEndpoint` output is `db.internal:3306`. -/
theorem claim3_external_db_mode (cfg : StackConfig) (st : Stack)
    (hdm : cfg.deployMariadb = some false) (hh : cfg.mariadbHost = some "db.internal")
    (hok : program cfg = Except.ok st) :
    st.mariadb = none ∧ st.mariadbEndpoint = "db.internal:3306" := by
  obtain ⟨kc, d, pw, sk, rpw, -, -, -, -, -, hst⟩ := program_ok_shape cfg st hok
  subst hst
  refine ⟨by simp [mkStack, hdm], ?_⟩
  simp [mkStack, hdm, dbConfigOf, jsOrStr, hh]

/-! ## Claim C7 -/

/-- C7: with ingress disabled (`deploy-ingress` false or unset) the Postal
component declares no ingress object, while the `webUrl` output is still the
HTTPS form of the configured domain. -/
theorem claim7_ingress_disabled (cfg : StackConfig) (st : Stack)
    (hing : cfg.deployIngress = some false ∨ cfg.deployIngress = none)
    (hok : program cfg = Except.ok st) :
    st.postal.ingress = none ∧ ∃ d, cfg.domain = some d ∧ st.webUrl = "https://" ++ d := by
  obtain ⟨kc, d, pw, sk, rpw, -, hd, -, -, -, hst⟩ := program_ok_shape cfg st hok
  subst hst
  refine ⟨?_, d, hd, by simp [mkStack]⟩
  rcases hing with hi | hi <;>
    simp [mkStack, postalOf, mkPostal, ingressConfigOf, jsTruthy, hi]

/-! ## Claim C4 -/

/-- The template tail after the first `host:` line, host fixed to the
generated service name (used to locate that line without assumptions on the
other interpolated values). -/
def ymlTailAfterHost (u p db dom k : String) : List Char :=
  ("  username: " ++ u ++ "\n  password: " ++ p ++ "\n  database: " ++ db ++
    "\nmessage_db:\n  host: postal-mariadb-service\n  username: " ++ u ++
    "\n  password: " ++ p ++ "\n  prefix: postal\nrails:\n  secret_key: " ++ k ++
    "\npostal:\n  web_hostname: " ++ dom ++
    "\n  web_protocol: https\n  use_ip_pools: true\n  smtp_hostname: " ++ dom ++
    "\n  trusted_proxies:\n    - 0.0.0.0/0\ndns:\n  mx_records:\n    - \"10 " ++ dom ++
    "\"\n  return_path_domain: " ++ dom ++
    "\n  route_domain: " ++ dom ++
    "\n  track_domain: " ++ dom ++
    "\n  spf_include: " ++ dom ++
    "\nweb_server:\n  default_bind_address: 0.0.0.0\n  default_port: 5000\nsmtp_server:\n  default_port: 25\n  tls_enabled: true\n").data

set_option maxHeartbeats 1000000 in
set_option maxRecDepth 8000 in
/-- The `main_db` host line appears in the rendered document whenever the
host is the generated service name, whatever the other values are. -/
theorem hostLine_mem (u p db dom k : String) :
    ("  host: ".data ++ "postal-mariadb-service".data)
      ∈ splitLines (postalYmlContent "postal-mariadb-service" u p db dom k).data := by
  have e : (postalYmlContent "postal-mariadb-service" u p db dom k).data
      = "version: 2".data ++ '\n' :: ("main_db:".data ++ '\n' ::
          (("  host: ".data ++ "postal-mariadb-service".data) ++ '\n' ::
            ymlTailAfterHost u p db dom k)) := by
    simp only [postalYmlContent, ymlTailAfterHost, strData_append,
      List.append_assoc, List.cons_append, List.nil_append]
  rw [e, splitLines_append_nl _ _ (by decide), splitLines_append_nl _ _ (by decide),
    splitLines_append_nl _ _ (by decide)]
  simp

/-- C4: in integrated-database mode (deploy-mariadb true, no host override)
the database host written into the rendered configuration is the name of the
Service declared by the MariaDB component (`postal-mariadb-service`), both
as the template's host argument and as a literal `host:` line. -/
theorem claim4_integrated_db_host (cfg : StackConfig) (st : Stack)
    (hdm : cfg.deployMariadb = some true) (hh : cfg.mariadbHost = none)
    (hok : program cfg = Except.ok st) :
    ∃ m d pw, cfg.domain = some d ∧ cfg.mariadbPassword = some pw
      ∧ st.mariadb = some m
      ∧ m.service.metadata.name = "postal-mariadb-service"
      ∧ st.postal.renderedConfig
          = postalYmlContent m.service.metadata.name (dbConfigOf cfg).username pw
              (dbConfigOf cfg).database d
              (railsSecretStr (cfg.railsSecretKey.map OutputVal.mk))
      ∧ ("  host: ".data ++ m.service.metadata.name.data)
          ∈ splitLines st.postal.renderedConfig.data := by
  obtain ⟨kc, d, pw, sk, rpw, -, hd, hpw, -, -, hst⟩ := program_ok_shape cfg st hok
  subst hst
  have hhost : (dbConfigOf cfg).host = "postal-mariadb-service" := by
    simp [dbConfigOf, jsOrStr, hh]
  have e3 : (mkStack cfg d pw sk rpw).postal.renderedConfig
      = postalYmlContent "postal-mariadb-service" (dbConfigOf cfg).username pw
          (dbConfigOf cfg).database d
          (railsSecretStr (cfg.railsSecretKey.map OutputVal.mk)) := by
    simp [mkStack, postalOf, mkPostal, hhost]
  refine ⟨integratedMariadbOf cfg rpw pw, d, pw, hd, hpw,
    by simp [mkStack, hdm], rfl, ?_, ?_⟩
  · exact e3
  · rw [e3]
    exact hostLine_mem _ _ _ _ _

/-! ## Claim C1 -/

/-- Core facts about the rendered configuration of a declared stack, for
newline-free inputs and no rails-secret-key override: the document is
line-syntactically valid, contains the supplied host, username, password,
database and domain values on their template lines, and is stored
base64-encoded in the secret under `postal.yml`. -/
theorem mkStack_config_doc (cfg : StackConfig) (d pw sk rpw : String)
    (hrails : cfg.railsSecretKey = none)
    (hnd : '\n' ∉ d.data) (hnpw : '\n' ∉ pw.data)
    (hnh : '\n' ∉ (dbConfigOf cfg).host.data)
    (hnu : '\n' ∉ (dbConfigOf cfg).username.data)
    (hndb : '\n' ∉ (dbConfigOf cfg).database.data) :
    validDoc (mkStack cfg d pw sk rpw).postal.renderedConfig = true
      ∧ ("  host: ".data ++ (dbConfigOf cfg).host.data)
          ∈ splitLines (mkStack cfg d pw sk rpw).postal.renderedConfig.data
      ∧ ("  username: ".data ++ (dbConfigOf cfg).username.data)
          ∈ splitLines (mkStack cfg d pw sk rpw).postal.renderedConfig.data
      ∧ ("  password: ".data ++ pw.data)
          ∈ splitLines (mkStack cfg d pw sk rpw).postal.renderedConfig.data
      ∧ ("  database: ".data ++ (dbConfigOf cfg).database.data)
          ∈ splitLines (mkStack cfg d pw sk rpw).postal.renderedConfig.data
      ∧ ("  web_hostname: ".data ++ d.data)
          ∈ splitLines (mkStack cfg d pw sk rpw).postal.renderedConfig.data
      ∧ lookupKV (mkStack cfg d pw sk rpw).postal.secret.data "postal.yml"
          = some (base64Encode (mkStack cfg d pw sk rpw).postal.renderedConfig) := by
  have e1 : (mkStack cfg d pw sk rpw).postal.renderedConfig
      = postalYmlContent (dbConfigOf cfg).host (dbConfigOf cfg).username pw
          (dbConfigOf cfg).database d defaultRailsSecretKey := by
    simp [mkStack, postalOf, mkPostal, hrails, railsSecretStr]
  have hsl : splitLines (mkStack cfg d pw sk rpw).postal.renderedConfig.data
      = postalDocLines (dbConfigOf cfg).host (dbConfigOf cfg).username pw
          (dbConfigOf cfg).database d defaultRailsSecretKey := by
    rw [e1, splitLines_postalYml _ _ _ _ _ _ hnh hnu hnpw hndb hnd (by decide)]
  refine ⟨?_, ?_, ?_, ?_, ?_, ?_, ?_⟩
  · simp only [validDoc, hsl]
    exact docLines_all_valid _ _ _ _ _ _
  · rw [hsl]; simp [postalDocLines]
  · rw [hsl]; simp [postalDocLines]
  · rw [hsl]; simp [postalDocLines]
  · rw [hsl]; simp [postalDocLines]
  · rw [hsl]; simp [postalDocLines]
  · simp [mkStack, postalOf, mkPostal, lookupKV]

/-- C1 (amended): for a successful run whose supplied values are free of
newlines and with no rails-secret-key override, the rendered configuration
document is line-syntactically valid, contains exactly the supplied domain,
database host, username, password and database values, and is stored
base64-encoded in the Postal secret. -/
theorem claim1_rendered_config_amended (cfg : StackConfig) (st : Stack) (d pw : String)
    (hok : program cfg = Except.ok st)
    (hd : cfg.domain = some d) (hpw : cfg.mariadbPassword = some pw)
    (hrails : cfg.railsSecretKey = none)
    (hnd : '\n' ∉ d.data) (hnpw : '\n' ∉ pw.data)
    (hnh : '\n' ∉ (dbConfigOf cfg).host.data)
    (hnu : '\n' ∉ (dbConfigOf cfg).username.data)
    (hndb : '\n' ∉ (dbConfigOf cfg).database.data) :
    validDoc st.postal.renderedConfig = true
      ∧ ("  host: ".data ++ (dbConfigOf cfg).host.data)
          ∈ splitLines st.postal.renderedConfig.data
      ∧ ("  username: ".data ++ (dbConfigOf cfg).username.data)
          ∈ splitLines st.postal.renderedConfig.data
      ∧ ("  password: ".data ++ pw.data)
          ∈ splitLines st.postal.renderedConfig.data
      ∧ ("  database: ".data ++ (dbConfigOf cfg).database.data)
          ∈ splitLines st.postal.renderedConfig.data
      ∧ ("  web_hostname: ".data ++ d.data)
          ∈ splitLines st.postal.renderedConfig.data
      ∧ lookupKV st.postal.secret.data "postal.yml"
          = some (base64Encode st.postal.renderedConfig) := by
  obtain ⟨kc, d0, pw0, sk, rpw, -, hd0, hpw0, -, -, hst⟩ := program_ok_shape cfg st hok
  obtain rfl : d0 = d := Option.some.inj (hd0.symm.trans hd)
  obtain rfl : pw0 = pw := Option.some.inj (hpw0.symm.trans hpw)
  subst hst
  exact mkStack_config_doc cfg _ _ sk rpw hrails hnd hnpw hnh hnu hndb

/-! ## Concrete configurations used by counterexamples and witnesses -/

/-- A settings store with all required values present, integrated database,
no overrides. -/
def cfgAllSet : StackConfig :=
  { kubeconfig := some "kubecfg", domain := some "mail.example.org",
    mariadbPassword := some "examplepw", signingKey := some "signkey",
    mariadbRootPassword := some "rootpw" }

/-- All required values present, but the database password embeds a
newline. -/
def c1BadCfg : StackConfig :=
  { kubeconfig := some "kubecfg", domain := some "mail.example.org",
    mariadbPassword := some "bad\npassword", signingKey := some "signkey",
    mariadbRootPassword := some "rootpw" }

/-- All required values present plus a rails-secret-key override. -/
def c5Cfg : StackConfig :=
  { kubeconfig := some "kubecfg", domain := some "mail.example.org",
    mariadbPassword := some "examplepw", signingKey := some "signkey",
    mariadbRootPassword := some "rootpw", railsSecretKey := some "myrailskey" }

/-- External-database mode with host `db.internal`. -/
def c3cfgW : StackConfig :=
  { kubeconfig := some "kubecfg", domain := some "mail.example.org",
    mariadbPassword := some "examplepw", signingKey := some "signkey",
    mariadbRootPassword := some "rootpw", deployMariadb := some false,
    mariadbHost := some "db.internal" }

/-- Integrated-database mode selected explicitly. -/
def c4cfgW : StackConfig :=
  { kubeconfig := some "kubecfg", domain := some "mail.example.org",
    mariadbPassword := some "examplepw", signingKey := some "signkey",
    mariadbRootPassword := some "rootpw", deployMariadb := some true }

/-- A settings store missing the required domain. -/
def c6cfgW : StackConfig :=
  { kubeconfig := some "kubecfg", mariadbPassword := some "examplepw",
    signingKey := some "signkey", mariadbRootPassword := some "rootpw" }

/-- The C9 scenario: `mail.example.com`, integrated database, SMTP service
type `LoadBalancer`, no static address. -/
def c9Cfg : StackConfig :=
  { kubeconfig := some "kubecfg", domain := some "mail.example.com",
    mariadbPassword := some "dbpw", signingKey := some "signkey",
    mariadbRootPassword := some "rootpw", smtpServiceType := some "LoadBalancer" }

set_option maxRecDepth 8000 in
set_option maxHeartbeats 2000000 in
/-- C1 counterexample: with every required value present but a newline
inside the supplied database password, the run succeeds yet the rendered
configuration document is not syntactically valid — the claim's universal
statement over all valid inputs fails. -/
theorem claim1_counterexample :
    exIsOk (program c1BadCfg) = true
      ∧ validDoc (exStack (program c1BadCfg)).postal.renderedConfig = false :=
  ⟨rfl, by decide⟩

/-- C1 witness configuration facts at `cfgAllSet`. -/
theorem claim1_witness :
    validDoc (exStack (program cfgAllSet)).postal.renderedConfig = true
      ∧ ("  host: ".data ++ (dbConfigOf cfgAllSet).host.data)
          ∈ splitLines (exStack (program cfgAllSet)).postal.renderedConfig.data
      ∧ ("  username: ".data ++ (dbConfigOf cfgAllSet).username.data)
          ∈ splitLines (exStack (program cfgAllSet)).postal.renderedConfig.data
      ∧ ("  password: ".data ++ "examplepw".data)
          ∈ splitLines (exStack (program cfgAllSet)).postal.renderedConfig.data
      ∧ ("  database: ".data ++ (dbConfigOf cfgAllSet).database.data)
          ∈ splitLines (exStack (program cfgAllSet)).postal.renderedConfig.data
      ∧ ("  web_hostname: ".data ++ "mail.example.org".data)
          ∈ splitLines (exStack (program cfgAllSet)).postal.renderedConfig.data
      ∧ lookupKV (exStack (program cfgAllSet)).postal.secret.data "postal.yml"
          = some (base64Encode (exStack (program cfgAllSet)).postal.renderedConfig) :=
  claim1_rendered_config_amended cfgAllSet (exStack (program cfgAllSet))
    "mail.example.org" "examplepw" rfl rfl rfl rfl
    (by decide) (by decide) (by decide) (by decide) (by decide)

/-! ## Claim C5 -/

set_option maxRecDepth 8000 in
set_option maxHeartbeats 2000000 in
/-- C5: when a rails-secret-key is supplied, the rendered configuration does
NOT contain the supplied key; the `secret_key:` entry instead carries the
pulumi Output-to-string warning message, because the template literal
coerces the unresolved `Output` object (the fixed default is used only when
no key is supplied). -/
theorem claim5_rails_secret_output_coercion :
    exIsOk (program c5Cfg) = true
      ∧ hasSeq "myrailskey".data
          (exStack (program c5Cfg)).postal.renderedConfig.data = false
      ∧ hasSeq
          "  secret_key: Calling [toString] on an [Output<T>] is not supported.".data
          (exStack (program c5Cfg)).postal.renderedConfig.data = true
      ∧ railsSecretStr (c5Cfg.railsSecretKey.map OutputVal.mk) = outputToStringMessage
      ∧ railsSecretStr (StackConfig.railsSecretKey { } |>.map OutputVal.mk)
          = defaultRailsSecretKey :=
  ⟨rfl, by decide, by decide, rfl, rfl⟩

/-! ## Claim C9 -/

set_option maxRecDepth 8000 in
set_option maxHeartbeats 2000000 in
/-- C9: for domain `mail.example.com` with the integrated database and SMTP
service type `LoadBalancer` without a static address, the outputs are
`webUrl=https://mail.example.com`, `mariadbServiceName=postal-mariadb-service`,
`smtpServiceType=LoadBalancer` (with no load-balancer IP pinned), and the
rendered configuration's `web_hostname` line carries `mail.example.com`. -/
theorem claim9_example_scenario :
    exIsOk (program c9Cfg) = true
      ∧ (exStack (program c9Cfg)).webUrl = "https://mail.example.com"
      ∧ (exStack (program c9Cfg)).mariadbServiceName = "postal-mariadb-service"
      ∧ (exStack (program c9Cfg)).smtpServiceType = "LoadBalancer"
      ∧ (exStack (program c9Cfg)).postal.smtpService.loadBalancerIP = none
      ∧ ("  web_hostname: mail.example.com".data)
          ∈ splitLines (exStack (program c9Cfg)).postal.renderedConfig.data :=
  ⟨rfl, rfl, rfl, rfl, rfl, by decide⟩

/-! ## Witnesses for the hypothesis-bearing theorems -/

/-- C3 witness: external-database mode at `c3cfgW`. -/
theorem claim3_witness :
    (exStack (program c3cfgW)).mariadb = none
      ∧ (exStack (program c3cfgW)).mariadbEndpoint = "db.internal:3306" :=
  claim3_external_db_mode c3cfgW (exStack (program c3cfgW)) rfl rfl rfl

/-- C4 witness: integrated-database mode at `c4cfgW`. -/
theorem claim4_witness :
    ∃ m d pw, c4cfgW.domain = some d ∧ c4cfgW.mariadbPassword = some pw
      ∧ (exStack (program c4cfgW)).mariadb = some m
      ∧ m.service.metadata.name = "postal-mariadb-service"
      ∧ (exStack (program c4cfgW)).postal.renderedConfig
          = postalYmlContent m.service.metadata.name (dbConfigOf c4cfgW).username pw
              (dbConfigOf c4cfgW).database d
              (railsSecretStr (c4cfgW.railsSecretKey.map OutputVal.mk))
      ∧ ("  host: ".data ++ m.service.metadata.name.data)
          ∈ splitLines (exStack (program c4cfgW)).postal.renderedConfig.data :=
  claim4_integrated_db_host c4cfgW (exStack (program c4cfgW)) rfl rfl rfl

/-- C6 witness: a missing domain is a fatal startup error. -/
theorem claim6_witness :
    ∃ k, program c6cfgW = Except.error (ConfigError.missing k) :=
  claim6_missing_config_fails c6cfgW (Or.inl rfl)

/-- C7 witness: ingress unset at `cfgAllSet`. -/
theorem claim7_witness :
    (exStack (program cfgAllSet)).postal.ingress = none
      ∧ ∃ d, cfgAllSet.domain = some d
          ∧ (exStack (program cfgAllSet)).webUrl = "https://" ++ d :=
  claim7_ingress_disabled cfgAllSet (exStack (program cfgAllSet)) (Or.inr rfl) rfl

end PostalSpec
